import Mathlib

/-!
Verification development for the `brother_ql_web.py` label-printing web service.

The Python source is shallowly embedded: form data is a map from parameter
names to optional strings, Python exceptions are an explicit `PyExc` type
threaded through `Except`, Python floats on the exercised values are modelled
as exact fractions, and the external collaborators (PIL image rendering, the
brother_ql raster builder, the transport backend, the base64 codec) appear as
explicit parameters or as observable events so the control flow of the
handlers can be reasoned about.

String literals that in CPython contain single quotes are written with the
escape \x27 for the quote character.
-/

namespace BrotherQLWeb

/-! ### Python exceptions

The exception classes raised or caught by the source: `KeyError` (a failed
dict subscript), `LookupError` (raised explicitly by `get_label_context`;
in Python `KeyError` is a subclass of `LookupError`), `ValueError` (a failed
`int()`/`float()` conversion) and `AttributeError` (a missing attribute).
-/

inductive PyExc where
  | keyError (key : String)
  | lookupError (msg : String)
  | valueError (msg : String)
  | attributeError (msg : String)
  | typeError (msg : String)
  deriving DecidableEq, Repr

/-- `isinstance(e, LookupError)`: `KeyError` is a subclass of `LookupError`. -/
def PyExc.isLookupError : PyExc → Bool
  | .keyError _ => true
  | .lookupError _ => true
  | _ => false

/-- `str(e)`: `KeyError` renders as the repr of the missing key. -/
def PyExc.str : PyExc → String
  | .keyError k => "\x27" ++ k ++ "\x27"
  | .lookupError m => m
  | .valueError m => m
  | .attributeError m => m
  | .typeError m => m

/-- Reading the attribute `e.msg`.  None of the builtin exception classes used
here defines a `msg` attribute, so in CPython this access itself raises
`AttributeError`. -/
def PyExc.msgAttr : PyExc → Except PyExc String
  | .keyError _ =>
      .error (.attributeError "\x27KeyError\x27 object has no attribute \x27msg\x27")
  | .lookupError _ =>
      .error (.attributeError "\x27LookupError\x27 object has no attribute \x27msg\x27")
  | .valueError _ =>
      .error (.attributeError "\x27ValueError\x27 object has no attribute \x27msg\x27")
  | .attributeError _ =>
      .error (.attributeError "\x27AttributeError\x27 object has no attribute \x27msg\x27")
  | .typeError _ =>
      .error (.attributeError "\x27TypeError\x27 object has no attribute \x27msg\x27")

/-! ### Python value helpers -/

/-- Python truthiness of a `str`-or-`None` value: `None` and `""` are falsy. -/
def pyTruthy : Option String → Bool
  | none => false
  | some s => s != ""

/-- Python truthiness of an `int`-or-`False` value (`False` modelled as `none`):
`0` is falsy. -/
def truthyInt : Option Int → Bool
  | none => false
  | some n => n != 0

def digitVal (c : Char) : Option Nat :=
  if c.isDigit then some (c.toNat - 48) else none

def parseNatDigits (cs : List Char) : Option Nat :=
  match cs with
  | [] => none
  | _ => cs.foldlM (fun acc c => (digitVal c).map fun d => acc * 10 + d) 0

/-- Python `int(s)` on the plain decimal subset exercised here: an optional
sign followed by one or more digits; anything else raises `ValueError`. -/
def parsePyInt (s : String) : Option Int :=
  match s.toList with
  | '-' :: rest => (parseNatDigits rest).map fun n => -(n : Int)
  | '+' :: rest => (parseNatDigits rest).map fun n => (n : Int)
  | cs => (parseNatDigits cs).map fun n => (n : Int)

/-- Split a character list at the first `'.'`. -/
def splitDot (cs : List Char) : List Char × Option (List Char) :=
  match cs with
  | [] => ([], none)
  | '.' :: rest => ([], some rest)
  | c :: rest =>
    let p := splitDot rest
    (c :: p.1, p.2)

def digitsOnly (cs : List Char) : Bool := cs.all Char.isDigit

def natOfDigits (cs : List Char) : Nat :=
  cs.foldl (fun acc c => acc * 10 + (c.toNat - 48)) 0

/-- A Python float, modelled as an exact fraction (numerator over a positive
denominator, not necessarily reduced): every decimal value this program feeds
through `float()` is handled exactly. -/
structure PyFloat where
  num : Int
  den : Nat
  deriving Repr

/-- Python `float(s)` on the plain decimal subset exercised here: an optional
sign, then digits with an optional fractional part. -/
def parsePyFloat (s : String) : Option PyFloat :=
  let p : Int × List Char :=
    match s.toList with
    | '-' :: rest => (-1, rest)
    | '+' :: rest => (1, rest)
    | cs => (1, cs)
  let ip := (splitDot p.2).1
  match (splitDot p.2).2 with
  | none =>
    if !ip.isEmpty && digitsOnly ip then some ⟨p.1 * natOfDigits ip, 1⟩ else none
  | some fp =>
    if (!ip.isEmpty || !fp.isEmpty) && digitsOnly ip && digitsOnly fp then
      some ⟨p.1 * (natOfDigits ip * 10 ^ fp.length + natOfDigits fp), 10 ^ fp.length⟩
    else none

/-- Division by `100.0` (line 84ff: `float(...) / 100.0`). -/
def PyFloat.div100 (q : PyFloat) : PyFloat := ⟨q.num, q.den * 100⟩

/-- Multiplication by an `int` (lines 94–97: `font_size * rate`). -/
def PyFloat.intMul (n : Int) (q : PyFloat) : PyFloat := ⟨n * q.num, q.den⟩

/-- Python `int(q)` on a float value: truncation toward zero, which on an
exact fraction with positive denominator is `Int.tdiv`. -/
def pyTrunc (q : PyFloat) : Int := Int.tdiv q.num (q.den : Int)

/-! ### Python string helpers -/

/-- Split at the last occurrence of `c`: returns `(head, tail)` of
`s.rpartition(c) = (head, c, tail)`; `none` when `c` does not occur. -/
def rpartitionAux (c : Char) : List Char → Option (List Char × List Char)
  | [] => none
  | x :: xs =>
    match rpartitionAux c xs with
    | some p => some (x :: p.1, p.2)
    | none => if x = c then some ([], xs) else none

/-- Python `s.rpartition(sep)` for a one-character separator, keeping only the
head and tail parts: when `sep` is absent Python returns `("", "", s)`. -/
def rpartitionChar (c : Char) (s : String) : String × String :=
  match rpartitionAux c s.toList with
  | some p => (⟨p.1⟩, ⟨p.2⟩)
  | none => ("", s)

/-- Python `s.strip()` with no argument: removes leading and trailing
whitespace. -/
def pyStrip (s : String) : String :=
  ⟨((s.toList.dropWhile Char.isWhitespace).reverse.dropWhile Char.isWhitespace).reverse⟩

/-- Python `s.rstrip(c)` for a one-character strip set: removes every trailing
occurrence of `c`. -/
def pyRstrip (c : Char) (s : String) : String :=
  ⟨(s.toList.reverse.dropWhile (· = c)).reverse⟩

/-- `pat` is a prefix of `l` (character lists). -/
def startsWithL : List Char → List Char → Bool
  | [], _ => true
  | _ :: _, [] => false
  | a :: as, b :: bs => a = b && startsWithL as bs

/-- Python `pat in s` on character lists: substring containment. -/
def containsSub (pat : List Char) : List Char → Bool
  | [] => startsWithL pat []
  | c :: cs => startsWithL pat (c :: cs) || containsSub pat cs

/-- The test `"red" in label_size` used to pick the fill color and the raster
`red` flag. -/
def redIn (s : String) : Bool := containsSub "red".toList s.toList

/-! ### Data model: fonts, label specifications, configuration, requests -/

/-- `FONTS`: font family name → style name → font file path
(association-list model of the nested dict built by `get_fonts`). -/
abbrev Fonts := List (String × List (String × String))

def fontsLookup (fonts : Fonts) (family style : String) : Option String :=
  match fonts.lookup family with
  | none => none
  | some styles => styles.lookup style

/-- The three label kinds of `brother_ql.devicedependent`; every entry of
`label_type_specs` carries one of them. -/
inductive LabelKind where
  | endless
  | dieCut
  | roundDieCut
  deriving DecidableEq, Repr

/-- The slice of a `label_type_specs` entry the source reads: its `kind` and
its `dots_printable` pair. -/
structure LabelSpec where
  kind : LabelKind
  dots_printable : Nat × Nat
  deriving DecidableEq, Repr

/-- `label_type_specs`: label size name → specification (association-list
model of the brother_ql dict). -/
abbrev LabelSpecs := List (String × LabelSpec)

/-- The slice of `CONFIG` the handlers and `main` read.  `DEFAULT_FONTS` is
modelled in its post-startup shape, a single family/style pair. -/
structure Config where
  printer_printer : String
  printer_model : String
  server_port : Int
  server_loglevel : String
  server_host : String
  server_font_folder : String
  label_default_size : String
  label_default_orientation : String
  label_default_font_family : String
  label_default_font_style : String
  deriving DecidableEq, Repr

/-- An HTTP request: the UTF-8 decoded form parameters (`request.params`) and
the query-string parameters (`request.query`). -/
structure Request where
  params : String → Option String
  query : String → Option String

/-- Replace one form parameter. -/
def setParam (req : Request) (k v : String) : Request :=
  { req with params := fun k2 => if k2 = k then some v else req.params k2 }

/-- Replace one query parameter. -/
def setQuery (req : Request) (k v : String) : Request :=
  { req with query := fun k2 => if k2 = k then some v else req.query k2 }

/-- Remove one query parameter. -/
def delQuery (req : Request) (k : String) : Request :=
  { req with query := fun k2 => if k2 = k then none else req.query k2 }

/-! ### `get_label_context` -/

/-- `int(d.get(key, dflt))`: the default is already an `int`; a supplied value
is a string converted by `int()`, raising `ValueError` when malformed. -/
def intField (v : Option String) (dflt : Int) : Except PyExc Int :=
  match v with
  | none => .ok dflt
  | some s =>
    match parsePyInt s with
    | some n => .ok n
    | none => .error (.valueError ("invalid literal for int() with base 10: \x27" ++ s ++ "\x27"))

/-- `float(d.get(key, dflt))` analogously. -/
def floatField (v : Option String) (dflt : PyFloat) : Except PyExc PyFloat :=
  match v with
  | none => .ok dflt
  | some s =>
    match parsePyFloat s with
    | some q => .ok q
    | none => .error (.valueError ("could not convert string to float: \x27" ++ s ++ "\x27"))

/-- The inner `get_font_path` of `get_label_context`: when either name is
`None` the configured default font is used; a failed `FONTS` lookup
(`KeyError`) is re-raised as `LookupError`. -/
def get_font_path (cfg : Config) (fonts : Fonts) :
    Option String → Option String → Except PyExc String
  | famOpt, styOpt =>
    let fam := match famOpt, styOpt with
      | some f, some _ => f
      | _, _ => cfg.label_default_font_family
    let sty := match famOpt, styOpt with
      | some _, some s => s
      | _, _ => cfg.label_default_font_style
    match fontsLookup fonts fam sty with
    | some p => .ok p
    | none => .error (.lookupError "Couln\x27t find the font & style")

/-- The inner `get_label_dimensions`: a failed `label_type_specs` lookup is
re-raised as `LookupError`. -/
def labelDims (specs : LabelSpecs) (label_size : String) : Except PyExc (Nat × Nat) :=
  match specs.lookup label_size with
  | some sp => .ok sp.dots_printable
  | none => .error (.lookupError "Unknown label_size")

/-- Lines 121–124: normalise so that width ≥ height, then swap the pair when
the orientation is `"rotated"`.  The result is `(width, height)`. -/
def orientDims (orientation : String) (dims : Nat × Nat) : Nat × Nat :=
  let p := if dims.2 > dims.1 then (dims.2, dims.1) else (dims.1, dims.2)
  if orientation = "rotated" then (p.2, p.1) else (p.1, p.2)

/-- The label context dict built by `get_label_context`. -/
structure LabelContext where
  text : Option String
  font_size : Int
  font_family : String
  font_style : String
  label_size : String
  kind : LabelKind
  margin : Int
  threshold : Int
  align : String
  orientation : String
  margin_top : Int
  margin_bottom : Int
  margin_left : Int
  margin_right : Int
  grocycode : Option String
  product : Option String
  duedate : Option String
  battery : Option String
  chore : Option String
  fill_color : Nat × Nat × Nat
  font_path : String
  width : Nat
  height : Nat
  deriving DecidableEq, Repr

/-- `get_label_context` on the decoded form data `d`, following the source
statement by statement (the dict-literal entries evaluate left to right, so a
bad `font_size` raises before the `kind` lookup, the `kind` lookup raises a
bare `KeyError` before the margins are read, and the font lookup raises before
the dimensions lookup). -/
def get_label_context_d (cfg : Config) (fonts : Fonts) (specs : LabelSpecs)
    (d : String → Option String) : Except PyExc LabelContext :=
  match d "font_family" with
  | none => .error (.attributeError "\x27NoneType\x27 object has no attribute \x27rpartition\x27")
  | some ffRaw =>
    let font_family := pyStrip (rpartitionChar '(' ffRaw).1
    let font_style := pyRstrip ')' (rpartitionChar '(' ffRaw).2
    match intField (d "font_size") 40 with
    | .error e => .error e
    | .ok font_size =>
      let label_size := (d "label_size").getD "50"
      match specs.lookup label_size with
      | none => .error (.keyError label_size)
      | some spec0 =>
        match intField (d "margin") 10 with
        | .error e => .error e
        | .ok margin =>
          match intField (d "threshold") 70 with
          | .error e => .error e
          | .ok threshold =>
            match floatField (d "margin_top") ⟨25, 1⟩ with
            | .error e => .error e
            | .ok mtR =>
              match floatField (d "margin_bottom") ⟨25, 1⟩ with
              | .error e => .error e
              | .ok mbR =>
                match floatField (d "margin_left") ⟨25, 1⟩ with
                | .error e => .error e
                | .ok mlR =>
                  match floatField (d "margin_right") ⟨25, 1⟩ with
                  | .error e => .error e
                  | .ok mrR =>
                    let margin_top := pyTrunc (PyFloat.intMul font_size mtR.div100)
                    let margin_bottom := pyTrunc (PyFloat.intMul font_size mbR.div100)
                    let margin_left := pyTrunc (PyFloat.intMul font_size mlR.div100)
                    let margin_right := pyTrunc (PyFloat.intMul font_size mrR.div100)
                    let fill_color : Nat × Nat × Nat :=
                      if redIn label_size then (255, 0, 0) else (0, 0, 0)
                    match get_font_path cfg fonts (some font_family) (some font_style) with
                    | .error e => .error e
                    | .ok font_path =>
                      match labelDims specs label_size with
                      | .error e => .error e
                      | .ok dims =>
                        let wh := orientDims ((d "orientation").getD "standard") dims
                        .ok {
                          text := d "text"
                          font_size := font_size
                          font_family := font_family
                          font_style := font_style
                          label_size := label_size
                          kind := spec0.kind
                          margin := margin
                          threshold := threshold
                          align := (d "align").getD "center"
                          orientation := (d "orientation").getD "standard"
                          margin_top := margin_top
                          margin_bottom := margin_bottom
                          margin_left := margin_left
                          margin_right := margin_right
                          grocycode := d "grocycode"
                          product := d "product"
                          duedate := d "due_date"
                          battery := d "battery"
                          chore := d "chore"
                          fill_color := fill_color
                          font_path := font_path
                          width := wh.1
                          height := wh.2 }

/-- `get_label_context(request)`: line 69 decodes the form data once and the
rest of the function reads only that. -/
def get_label_context (cfg : Config) (fonts : Fonts) (specs : LabelSpecs)
    (req : Request) : Except PyExc LabelContext :=
  get_label_context_d cfg fonts specs req.params

/-! ### The print endpoints -/

/-- The `return_dict` JSON object: `success` is always present; the other
keys are set only on the paths that assign them. -/
structure ReturnDict where
  success : Bool
  error : Option String := none
  message : Option String := none
  data : Option String := none
  deriving DecidableEq, Repr

/-- The transport backend instance `BACKEND_CLASS(CONFIG['PRINTER']['PRINTER'])`:
the outcomes of its `write` and `dispose` calls are environment inputs. -/
structure Backend where
  writeResult : Except PyExc Unit
  disposeResult : Except PyExc Unit

/-- Observable calls a print handler makes: entry into a grocy label
renderer, the `create_label` raster call (with the `red` flag and threshold
it passes), the backend `write` and `dispose` calls, and `logger.warning`
messages. -/
inductive Event where
  | render
  | raster (label_size : String) (red : Bool) (threshold : Int)
  | write
  | dispose
  | warn (msg : String)
  deriving DecidableEq, BEq, Repr

/-- Lines 502–516 (identically 438–452): when not in DEBUG mode, one `try`
block constructs the backend, writes the raster data and disposes; any
exception is caught, recorded as `message`, logged, and the error dict
returned; otherwise `success` is set and, in DEBUG mode only, `data`. -/
def transport (debug : Bool) (be : Backend) (qlrData : String) (trace : List Event) :
    Except PyExc ReturnDict × List Event :=
  if debug then
    (.ok { success := true, data := some qlrData }, trace)
  else
    match be.writeResult with
    | .error e =>
        (.ok { success := false, message := some e.str },
         trace ++ [Event.write, Event.warn ("Exception happened: " ++ e.str)])
    | .ok _ =>
      match be.disposeResult with
      | .error e =>
          (.ok { success := false, message := some e.str },
           trace ++ [Event.write, Event.dispose, Event.warn ("Exception happened: " ++ e.str)])
      | .ok _ =>
          (.ok { success := true }, trace ++ [Event.write, Event.dispose])

/-- The shared `except LookupError as e: return_dict['error'] = e.msg` handler
of both print endpoints: only `LookupError` (and its subclass `KeyError`) is
caught, and the handler then reads the nonexistent attribute `e.msg`, which
itself raises `AttributeError`; any other exception propagates. -/
def lookupErrorBranch (e : PyExc) : Except PyExc ReturnDict × List Event :=
  if e.isLookupError then
    match e.msgAttr with
    | .ok m => (.ok { success := false, error := some m }, [])
    | .error e2 => (.error e2, [])
  else (.error e, [])

/-- `/api/print/text` (lines 455–516).  The PIL rendering `create_label_im`
has no observable effect on the response, and the raster call is recorded as
an event carrying the arguments the source passes. -/
def print_text (cfg : Config) (fonts : Fonts) (specs : LabelSpecs)
    (debug : Bool) (be : Backend) (qlrData : String) (req : Request) :
    Except PyExc ReturnDict × List Event :=
  match get_label_context cfg fonts specs req with
  | .error e => lookupErrorBranch e
  | .ok ctx =>
    if ctx.text = none then
      (.ok { success := false, error := some "Please provide the text for the label" }, [])
    else
      transport debug be qlrData
        [Event.raster ctx.label_size (redIn ctx.label_size) ctx.threshold]

/-- Lines 274–280 (identically 183–189): the label text is product, else
chore, else battery, chosen by Python truthiness. -/
def grocyText (ctx : LabelContext) : Option String :=
  if pyTruthy ctx.product then ctx.product
  else if pyTruthy ctx.chore then ctx.chore
  else ctx.battery

/-- The datamatrix renderer `create_label_grocy` (lines 267–358).  Tracing
the source, it raises on every input: a `None` grocycode fails at
`grocycode.encode("utf8")` (line 286); a `None` selected text fails inside
`textwrap.fill(None, 15)` (line 329); and otherwise line 335 compares the
tuple *method* `text_lines.count` against the int 1, a `TypeError` in
Python 3.  The external drawing, font and datamatrix libraries are assumed
not to raise first on present inputs, so the function never returns an
image. -/
def create_label_grocy (ctx : LabelContext) : Except PyExc Unit :=
  match ctx.grocycode with
  | none => .error (.attributeError "\x27NoneType\x27 object has no attribute \x27encode\x27")
  | some _ =>
    match grocyText ctx with
    | none =>
      .error (.attributeError "\x27NoneType\x27 object has no attribute \x27expandtabs\x27")
    | some _ =>
      .error (.typeError
        "\x27>\x27 not supported between instances of \x27builtin_function_or_method\x27 and \x27int\x27")

/-- `/api/print/grocy` (lines 384–452).  `envCode128` models the `Code128`
environment variable choosing the 1-d renderer.  `create_label_grocy_1d`
(lines 175–264) wraps its whole body in a catch-all `try/except` and returns
`None` on any internal exception, so its outcome — an image or `None` —
depends on the external barcode/font libraries and is an environment input
`render1d`.  When it returned `None`, the handler then dereferences `None`:
under DEBUG at `im.save(...)` (line 417), otherwise inside the library call
`create_label(qlr, None, ...)` (line 428); the exact library exception is
summarised by the modelled message.  The datamatrix renderer
`create_label_grocy` always raises (see its doc comment) and that exception
propagates — there is no `try` around rendering. -/
def print_grocy (cfg : Config) (fonts : Fonts) (specs : LabelSpecs)
    (debug envCode128 : Bool) (render1d : LabelContext → Option Unit)
    (be : Backend) (qlrData : String) (req : Request) :
    Except PyExc ReturnDict × List Event :=
  match get_label_context cfg fonts specs req with
  | .error e => lookupErrorBranch e
  | .ok ctx =>
    if ctx.product.isNone && pyTruthy ctx.battery && pyTruthy ctx.chore then
      (.ok { success := false,
             error := some "Please provide the product/battery/chore for the label" }, [])
    else
      if envCode128 then
        match render1d ctx with
        | some _ =>
          transport debug be qlrData
            [Event.render, Event.raster ctx.label_size (redIn ctx.label_size) ctx.threshold]
        | none =>
          (.error (.attributeError
              (if debug then "\x27NoneType\x27 object has no attribute \x27save\x27"
               else "NoneType image passed to create_label")),
           [Event.render])
      else
        match create_label_grocy ctx with
        | .error e => (.error e, [Event.render])
        | .ok _ =>
          transport debug be qlrData
            [Event.render, Event.raster ctx.label_size (redIn ctx.label_size) ctx.threshold]

/-! ### The preview endpoint and base64 -/

/-- PNG serialisation (lines 377–381): the bytes PIL writes for the image,
taken as an abstract encoder since PNG encoding lives in the library. -/
def image_to_png_bytes {Image : Type} (toPng : Image → List Nat) (im : Image) : List Nat :=
  toPng im

/-- The base64 alphabet as ASCII codes: `A`–`Z`, `a`–`z`, `0`–`9`, `+`, `/`. -/
def b64chars : List Nat :=
  (List.range 26).map (fun i => 65 + i) ++ (List.range 26).map (fun i => 97 + i) ++
    (List.range 10).map (fun i => 48 + i) ++ [43, 47]

def encChar (v : Nat) : Nat := b64chars.getD v 0

def decChar (c : Nat) : Nat := b64chars.indexOf c

/-- `base64.b64encode`: bytes to bytes, three input bytes per four alphabet
characters, `'='` (61) padding. -/
def b64encode : List Nat → List Nat
  | [] => []
  | [a] => [encChar (a / 4), encChar (a % 4 * 16), 61, 61]
  | [a, b] => [encChar (a / 4), encChar (a % 4 * 16 + b / 16), encChar (b % 16 * 4), 61]
  | a :: b :: c :: rest =>
      encChar (a / 4) :: encChar (a % 4 * 16 + b / 16) ::
        encChar (b % 16 * 4 + c / 64) :: encChar (c % 64) :: b64encode rest

/-- `base64.b64decode` on well-padded input. -/
def b64decode : List Nat → List Nat
  | c1 :: c2 :: c3 :: c4 :: rest =>
      if c3 = 61 then
        [decChar c1 * 4 + decChar c2 / 16]
      else if c4 = 61 then
        [decChar c1 * 4 + decChar c2 / 16, decChar c2 % 16 * 16 + decChar c3 / 4]
      else
        (decChar c1 * 4 + decChar c2 / 16) ::
          (decChar c2 % 16 * 16 + decChar c3 / 4) ::
          (decChar c3 % 4 * 64 + decChar c4) :: b64decode rest
  | _ => []

/-- `/api/preview/text` (lines 361–374): render the label, then return either
the PNG bytes (content type `image/png`) or their base64 encoding (content
type `text/plain`) according to the `return_format` query parameter.  There is
no `try` here, so a context error propagates. -/
def get_preview_image {Image : Type} (createIm : LabelContext → Image)
    (toPng : Image → List Nat) (cfg : Config) (fonts : Fonts) (specs : LabelSpecs)
    (req : Request) : Except PyExc (String × List Nat) :=
  match get_label_context cfg fonts specs req with
  | .error e => .error e
  | .ok ctx =>
    let im := createIm ctx
    if (req.query "return_format").getD "png" = "base64" then
      .ok ("text/plain", b64encode (image_to_png_bytes toPng im))
    else
      .ok ("image/png", image_to_png_bytes toPng im)

/-! ### `main`: command-line overrides (lines 552–584) -/

/-- The parsed `argparse` namespace.  Every argument defaults to `False`
(modelled `none`); `--loglevel` is converted to the numeric level by its
`type` function before `main` tests it. -/
structure Args where
  port : Option String := none
  loglevel : Option Int := none
  font_folder : Option String := none
  default_label_size : Option String := none
  default_orientation : Option String := none
  model : Option String := none
  printer : Option String := none

/-- The values `main` has settled on after the override block: the mutated
`CONFIG` plus the locals `PORT`, `LOGLEVEL`, `DEBUG` and
`ADDITIONAL_FONT_FOLDER`.  `PORT` is a command-line string or the configured
number; `LOGLEVEL` is a command-line number or the configured string. -/
structure MainSettings where
  config : Config
  port : Sum String Int
  loglevel : Sum Int String
  debug : Bool
  font_folder : String
  deriving DecidableEq

/-- Lines 554–584: each `if args.x:` test is Python truthiness, so an absent
argument (`False`), an empty string or level `NOTSET` (0) leaves the
configured value in place. -/
def applyArgs (a : Args) (c0 : Config) : MainSettings :=
  let c1 := if pyTruthy a.printer then { c0 with printer_printer := a.printer.getD "" } else c0
  let port : Sum String Int :=
    if pyTruthy a.port then .inl (a.port.getD "") else .inr c1.server_port
  let loglevel : Sum Int String :=
    if truthyInt a.loglevel then .inl (a.loglevel.getD 0) else .inr c1.server_loglevel
  let debug := match loglevel with
    | .inl n => n == 10
    | .inr _ => false
  let c2 := if pyTruthy a.model then { c1 with printer_model := a.model.getD "" } else c1
  let c3 := if pyTruthy a.default_label_size then
      { c2 with label_default_size := a.default_label_size.getD "" } else c2
  let c4 := if pyTruthy a.default_orientation then
      { c3 with label_default_orientation := a.default_orientation.getD "" } else c3
  let font_folder := if pyTruthy a.font_folder then a.font_folder.getD ""
    else c4.server_font_folder
  { config := c4, port := port, loglevel := loglevel, debug := debug, font_folder := font_folder }

/-! ### Shared state across requests -/

/-- The module-level shared state named by the specification: `CONFIG`,
`FONTS` and `LABEL_SIZES`. -/
structure GlobalState where
  config : Config
  fonts : Fonts
  label_sizes : List (String × String)

/-- The template context returned by `/labeldesigner` (lines 53–63). -/
structure DesignerView where
  font_family_names : List String
  fonts : Fonts
  label_sizes : List (String × String)
  website_config : Config
  deriving Repr

/-- `/` (lines 43–45): redirect to `/labeldesigner`. -/
def index_route (st : GlobalState) : GlobalState × String :=
  (st, "/labeldesigner")

/-- `/labeldesigner` (lines 53–63). -/
def labeldesigner_route (st : GlobalState) : GlobalState × DesignerView :=
  (st,
   { font_family_names := (st.fonts.map Prod.fst).insertionSort (· ≤ ·)
     fonts := st.fonts
     label_sizes := st.label_sizes
     website_config := st.config })

/-- `/api/preview/text` as a state transformer. -/
def preview_route {Image : Type} (createIm : LabelContext → Image)
    (toPng : Image → List Nat) (specs : LabelSpecs) (st : GlobalState) (req : Request) :
    GlobalState × Except PyExc (String × List Nat) :=
  (st, get_preview_image createIm toPng st.config st.fonts specs req)

/-- `/api/print/text` as a state transformer. -/
def print_text_route (specs : LabelSpecs) (debug : Bool) (be : Backend)
    (qlrData : String) (st : GlobalState) (req : Request) :
    GlobalState × (Except PyExc ReturnDict × List Event) :=
  (st, print_text st.config st.fonts specs debug be qlrData req)

/-- `/api/print/grocy` as a state transformer. -/
def print_grocy_route (specs : LabelSpecs) (debug envCode128 : Bool)
    (render1d : LabelContext → Option Unit) (be : Backend)
    (qlrData : String) (st : GlobalState) (req : Request) :
    GlobalState × (Except PyExc ReturnDict × List Event) :=
  (st, print_grocy st.config st.fonts specs debug envCode128 render1d be qlrData req)

/-! ### Concrete instances for witnesses -/

/-- A small font registry. -/
def fonts0 : Fonts :=
  [("DejaVu Sans", [("Book", "/fonts/DejaVuSans.ttf"), ("Bold", "/fonts/DejaVuSans-Bold.ttf")]),
   ("Roboto", [("Regular", "/fonts/Roboto-Regular.ttf")])]

/-- A small label-specification registry. -/
def specs0 : LabelSpecs :=
  [("50", { kind := .endless, dots_printable := (554, 0) }),
   ("62", { kind := .endless, dots_printable := (696, 0) }),
   ("62red", { kind := .endless, dots_printable := (696, 0) }),
   ("23x23", { kind := .dieCut, dots_printable := (202, 202) }),
   ("29x90", { kind := .dieCut, dots_printable := (306, 991) })]

def cfg0 : Config :=
  { printer_printer := "file:///dev/usb/lp0"
    printer_model := "QL-500"
    server_port := 8013
    server_loglevel := "WARNING"
    server_host := ""
    server_font_folder := ""
    label_default_size := "62"
    label_default_orientation := "standard"
    label_default_font_family := "DejaVu Sans"
    label_default_font_style := "Book"}

/-- A backend whose calls all succeed. -/
def beOk : Backend := { writeResult := .ok (), disposeResult := .ok () }

/-- A backend whose `write` raises. -/
def beFail : Backend :=
  { writeResult := .error (.valueError "Device not found"), disposeResult := .ok () }

/-- A 1-d renderer run in which `create_label_grocy_1d` succeeds. -/
def render1dOk : LabelContext → Option Unit := fun _ => some ()

/-- A 1-d renderer run in which `create_label_grocy_1d` caught an internal
exception and returned `None`. -/
def render1dNone : LabelContext → Option Unit := fun _ => none

/-- An association-list request: parameters given as a list of pairs. -/
def mkRequest (ps qs : List (String × String)) : Request :=
  { params := fun k => ps.lookup k, query := fun k => qs.lookup k }

/-- A print request naming a font absent from `fonts0`. -/
def reqBadFont : Request :=
  mkRequest [("font_family", "UnknownFont (Regular)"), ("text", "hi")] []

/-- A print request naming a label size absent from `specs0`. -/
def reqBadSize : Request :=
  mkRequest [("font_family", "DejaVu Sans (Book)"), ("text", "hi"), ("label_size", "99x99")] []

/-- A well-formed text print request relying on the defaults. -/
def reqGood : Request :=
  mkRequest [("font_family", "DejaVu Sans (Book)"), ("text", "hi")] []

/-- The context `get_label_context` builds for `reqGood` over `fonts0`/`specs0`. -/
def ctxGood : LabelContext :=
  { text := some "hi", font_size := 40, font_family := "DejaVu Sans", font_style := "Book",
    label_size := "50", kind := .endless, margin := 10, threshold := 70, align := "center",
    orientation := "standard", margin_top := 10, margin_bottom := 10, margin_left := 10,
    margin_right := 10, grocycode := none, product := none, duedate := none, battery := none,
    chore := none, fill_color := (0, 0, 0), font_path := "/fonts/DejaVuSans.ttf",
    width := 554, height := 0 }

/-- A request for a die-cut label, used to compare the two orientations. -/
def reqDieCut : Request :=
  mkRequest [("font_family", "DejaVu Sans (Book)"), ("label_size", "29x90")] []

/-- The context for `reqDieCut` with orientation `standard`. -/
def ctxStd : LabelContext :=
  { text := none, font_size := 40, font_family := "DejaVu Sans", font_style := "Book",
    label_size := "29x90", kind := .dieCut, margin := 10, threshold := 70, align := "center",
    orientation := "standard", margin_top := 10, margin_bottom := 10, margin_left := 10,
    margin_right := 10, grocycode := none, product := none, duedate := none, battery := none,
    chore := none, fill_color := (0, 0, 0), font_path := "/fonts/DejaVuSans.ttf",
    width := 991, height := 306 }

/-- The context for `reqDieCut` with orientation `rotated`. -/
def ctxRot : LabelContext :=
  { ctxStd with orientation := "rotated", width := 306, height := 991 }

/-- A grocy request with product, battery and chore all absent. -/
def reqGrocyBare : Request :=
  mkRequest [("font_family", "DejaVu Sans (Book)"), ("grocycode", "grcy:p:1")] []

/-- The context for `reqGrocyBare`. -/
def ctxGrocyBare : LabelContext :=
  { ctxGood with text := none, grocycode := some "grcy:p:1" }

/-- A text print request on the red 62mm tape. -/
def reqRed : Request :=
  mkRequest [("font_family", "DejaVu Sans (Book)"), ("text", "hi"), ("label_size", "62red")] []

/-- The context for `reqRed`: red fill. -/
def ctxRed : LabelContext :=
  { ctxGood with label_size := "62red", fill_color := (255, 0, 0), width := 696 }

/-- A preview request (form parameters only; the query varies per call). -/
def reqPreview : Request := reqGood

/-- A one-point image type for preview witnesses. -/
def pngStub : Unit → List Nat := fun _ => [137, 80, 78, 71, 13, 10]

/-- Arguments with the printer supplied as the empty string. -/
def argsEmptyPrinter : Args := { printer := some "" }

/-- Arguments exercising the truthy overrides. -/
def argsFull : Args :=
  { port := some "1234", loglevel := some 20, default_label_size := some "62",
    default_orientation := some "rotated", model := some "QL-700",
    printer := some "tcp://10.0.0.1:9100" }

/-- A shared-state value for the no-mutation claim. -/
def st0 : GlobalState :=
  { config := cfg0, fonts := fonts0,
    label_sizes := [("50", "50mm endless"), ("62", "62mm endless")] }

/-! ### Helper lemmas -/

theorem orientDims_standard (dims : Nat × Nat) :
    orientDims "standard" dims =
      if dims.2 > dims.1 then (dims.2, dims.1) else (dims.1, dims.2) := by
  unfold orientDims
  rw [if_neg (show ¬(("standard" : String) = "rotated") by decide)]

theorem orientDims_rotated (dims : Nat × Nat) :
    orientDims "rotated" dims =
      if dims.2 > dims.1 then (dims.1, dims.2) else (dims.2, dims.1) := by
  unfold orientDims
  rw [if_pos rfl]
  split <;> rfl

theorem orientDims_standard_wide (dims : Nat × Nat) :
    (orientDims "standard" dims).2 ≤ (orientDims "standard" dims).1 := by
  rw [orientDims_standard]
  split <;> simp <;> omega

theorem orientDims_rotated_swap (dims : Nat × Nat) :
    orientDims "rotated" dims =
      ((orientDims "standard" dims).2, (orientDims "standard" dims).1) := by
  rw [orientDims_standard, orientDims_rotated]
  split <;> rfl

/-- Decomposition of a successful `get_label_context` run: the fields the
claims need, expressed through the form data. -/
theorem glc_shape {cfg : Config} {fonts : Fonts} {specs : LabelSpecs}
    {d : String → Option String} {ctx : LabelContext}
    (h : get_label_context_d cfg fonts specs d = .ok ctx) :
    ∃ sp : LabelSpec, specs.lookup ((d "label_size").getD "50") = some sp ∧
      ctx.label_size = (d "label_size").getD "50" ∧
      ctx.orientation = (d "orientation").getD "standard" ∧
      ctx.kind = sp.kind ∧
      (ctx.width, ctx.height) = orientDims ctx.orientation sp.dots_printable ∧
      ctx.fill_color = (if redIn ctx.label_size then (255, (0 : Nat), (0 : Nat)) else (0, 0, 0)) ∧
      ctx.text = d "text" ∧ ctx.product = d "product" ∧
      ctx.battery = d "battery" ∧ ctx.chore = d "chore" := by
  unfold get_label_context_d at h
  cases hff : d "font_family" with
  | none => simp only [hff] at h; exact Except.noConfusion h
  | some ffRaw =>
  simp only [hff] at h
  cases h40 : intField (d "font_size") 40 with
  | error e => simp only [h40] at h; exact Except.noConfusion h
  | ok font_size =>
  simp only [h40] at h
  cases hsp : specs.lookup ((d "label_size").getD "50") with
  | none => simp only [hsp] at h; exact Except.noConfusion h
  | some sp =>
  simp only [hsp] at h
  cases hm : intField (d "margin") 10 with
  | error e => simp only [hm] at h; exact Except.noConfusion h
  | ok margin =>
  simp only [hm] at h
  cases ht : intField (d "threshold") 70 with
  | error e => simp only [ht] at h; exact Except.noConfusion h
  | ok threshold =>
  simp only [ht] at h
  cases hmt : floatField (d "margin_top") ⟨25, 1⟩ with
  | error e => simp only [hmt] at h; exact Except.noConfusion h
  | ok mtR =>
  simp only [hmt] at h
  cases hmb : floatField (d "margin_bottom") ⟨25, 1⟩ with
  | error e => simp only [hmb] at h; exact Except.noConfusion h
  | ok mbR =>
  simp only [hmb] at h
  cases hml : floatField (d "margin_left") ⟨25, 1⟩ with
  | error e => simp only [hml] at h; exact Except.noConfusion h
  | ok mlR =>
  simp only [hml] at h
  cases hmr : floatField (d "margin_right") ⟨25, 1⟩ with
  | error e => simp only [hmr] at h; exact Except.noConfusion h
  | ok mrR =>
  simp only [hmr] at h
  cases hfp : get_font_path cfg fonts
      (some (pyStrip (rpartitionChar '(' ffRaw).1))
      (some (pyRstrip ')' (rpartitionChar '(' ffRaw).2)) with
  | error e => simp only [hfp] at h; exact Except.noConfusion h
  | ok font_path =>
  simp only [hfp, labelDims, hsp] at h
  cases h
  exact ⟨sp, rfl, rfl, rfl, rfl, rfl, rfl, rfl, rfl, rfl, rfl⟩

/-- The trace a successful or failed transport run appends contains only
write, dispose and warn events beyond the incoming trace. -/
theorem transport_trace_mem (debug : Bool) (be : Backend) (q : String)
    (t0 : List Event) :
    ∀ ev ∈ (transport debug be q t0).2,
      ev ∈ t0 ∨ ev = Event.write ∨ ev = Event.dispose ∨ ∃ m, ev = Event.warn m := by
  intro ev hev
  unfold transport at hev
  split at hev
  · exact Or.inl hev
  · cases hw : be.writeResult with
    | error e =>
      rw [hw] at hev
      simp only [List.mem_append, List.mem_cons, List.not_mem_nil, or_false] at hev
      rcases hev with h | h | h
      · exact Or.inl h
      · exact Or.inr (Or.inl h)
      · exact Or.inr (Or.inr (Or.inr ⟨_, h⟩))
    | ok u =>
      rw [hw] at hev
      cases hd : be.disposeResult with
      | error e =>
        rw [hd] at hev
        simp only [List.mem_append, List.mem_cons, List.not_mem_nil, or_false] at hev
        rcases hev with h | h | h | h
        · exact Or.inl h
        · exact Or.inr (Or.inl h)
        · exact Or.inr (Or.inr (Or.inl h))
        · exact Or.inr (Or.inr (Or.inr ⟨_, h⟩))
      | ok u2 =>
        rw [hd] at hev
        simp only [List.mem_append, List.mem_cons, List.not_mem_nil, or_false] at hev
        rcases hev with h | h | h
        · exact Or.inl h
        · exact Or.inr (Or.inl h)
        · exact Or.inr (Or.inr (Or.inl h))

@[simp] theorem beq_render_write : (Event.render == Event.write) = false := rfl

@[simp] theorem beq_warn_write (m : String) : (Event.warn m == Event.write) = false := rfl

@[simp] theorem beq_dispose_write : (Event.dispose == Event.write) = false := rfl

@[simp] theorem beq_write_write : (Event.write == Event.write) = true := rfl

@[simp] theorem beq_raster_write (ls : String) (r : Bool) (th : Int) :
    (Event.raster ls r th == Event.write) = false := rfl

/-- Transport writes at most once, and a failing write yields the message
dict. -/
theorem transport_write_once (debug : Bool) (be : Backend) (q : String)
    (t0 : List Event) (h0 : t0.count Event.write = 0) :
    (transport debug be q t0).2.count Event.write ≤ 1 ∧
      (∀ e, be.writeResult = .error e → debug = false →
        (transport debug be q t0).1 = .ok { success := false, message := some e.str }) := by
  rcases Bool.eq_false_or_eq_true debug with hd | hd
  · subst hd
    constructor
    · simp [transport, h0]
    · intro e _ hfalse
      cases hfalse
  · subst hd
    constructor
    · cases hw : be.writeResult with
      | error e =>
        simp [transport, hw, List.count_append, h0, List.count_cons]
      | ok u =>
        cases hton : be.disposeResult <;>
          simp [transport, hw, hton, List.count_append, h0, List.count_cons]
    · intro e he _
      simp [transport, he]

theorem decChar_encChar : ∀ v < 64, decChar (encChar v) = v := by decide

theorem encChar_ne_pad : ∀ v < 64, encChar v ≠ 61 := by decide

/-- Base64 decoding inverts base64 encoding on byte lists. -/
theorem b64_roundtrip : ∀ l : List Nat, (∀ x ∈ l, x < 256) → b64decode (b64encode l) = l
  | [], _ => rfl
  | [a], h => by
      have ha : a < 256 := h a (by simp)
      have e1 : decChar (encChar (a / 4)) = a / 4 := decChar_encChar _ (by omega)
      have e2 : decChar (encChar (a % 4 * 16)) = a % 4 * 16 := decChar_encChar _ (by omega)
      simp only [b64encode, b64decode, e1, e2, if_true, List.cons.injEq, and_true]
      omega
  | [a, b], h => by
      have ha : a < 256 := h a (by simp)
      have hb : b < 256 := h b (by simp)
      have e1 : decChar (encChar (a / 4)) = a / 4 := decChar_encChar _ (by omega)
      have e2 : decChar (encChar (a % 4 * 16 + b / 16)) = a % 4 * 16 + b / 16 :=
        decChar_encChar _ (by omega)
      have e3 : decChar (encChar (b % 16 * 4)) = b % 16 * 4 := decChar_encChar _ (by omega)
      have n3 : encChar (b % 16 * 4) ≠ 61 := encChar_ne_pad _ (by omega)
      simp only [b64encode, b64decode, e1, e2, e3, if_neg n3, if_true,
        List.cons.injEq, and_true]
      omega
  | a :: b :: c :: rest, h => by
      have ha : a < 256 := h a (by simp)
      have hb : b < 256 := h b (by simp)
      have hc : c < 256 := h c (by simp)
      have ih := b64_roundtrip rest (fun x hx => h x (by simp [hx]))
      have e1 : decChar (encChar (a / 4)) = a / 4 := decChar_encChar _ (by omega)
      have e2 : decChar (encChar (a % 4 * 16 + b / 16)) = a % 4 * 16 + b / 16 :=
        decChar_encChar _ (by omega)
      have e3 : decChar (encChar (b % 16 * 4 + c / 64)) = b % 16 * 4 + c / 64 :=
        decChar_encChar _ (by omega)
      have e4 : decChar (encChar (c % 64)) = c % 64 := decChar_encChar _ (by omega)
      have n3 : encChar (b % 16 * 4 + c / 64) ≠ 61 := encChar_ne_pad _ (by omega)
      have n4 : encChar (c % 64) ≠ 61 := encChar_ne_pad _ (by omega)
      simp only [b64encode, b64decode, e1, e2, e3, e4, if_neg n3, if_neg n4, ih,
        List.cons.injEq, and_true]
      omega

/-- A transport run never produces an `ok` dict carrying an `error` field:
only the two validation paths before the raster call set `error`. -/
theorem transport_result_error_none (debug : Bool) (be : Backend) (q : String)
    (t0 : List Event) (rd : ReturnDict)
    (h : (transport debug be q t0).1 = .ok rd) : rd.error = none := by
  unfold transport at h
  split at h
  · cases h; rfl
  · cases hw : be.writeResult with
    | error e => simp only [hw] at h; cases h; rfl
    | ok u =>
      simp only [hw] at h
      cases hd : be.disposeResult with
      | error e => simp only [hd] at h; cases h; rfl
      | ok u2 => simp only [hd] at h; cases h; rfl

/-- The incoming trace survives into the transport result. -/
theorem transport_trace_prefix (debug : Bool) (be : Backend) (q : String)
    (t0 : List Event) : ∀ ev ∈ t0, ev ∈ (transport debug be q t0).2 := by
  intro ev hev
  unfold transport
  split
  · exact hev
  · cases hw : be.writeResult with
    | error e => simp [List.mem_append, hev]
    | ok u => cases hd : be.disposeResult <;> simp [List.mem_append, hev]

/-- A raster event in a `print_text` trace carries exactly the context's
label size, red flag and threshold. -/
theorem print_text_raster_events (cfg : Config) (fonts : Fonts) (specs : LabelSpecs)
    (debug : Bool) (be : Backend) (q : String) (req : Request) (ctx : LabelContext)
    (ls : String) (r : Bool) (th : Int)
    (hctx : get_label_context cfg fonts specs req = .ok ctx)
    (hmem : Event.raster ls r th ∈ (print_text cfg fonts specs debug be q req).2) :
    ls = ctx.label_size ∧ r = redIn ctx.label_size ∧ th = ctx.threshold := by
  unfold print_text at hmem
  simp only [hctx] at hmem
  by_cases htext : ctx.text = none
  · rw [if_pos htext] at hmem
    simp at hmem
  · rw [if_neg htext] at hmem
    rcases transport_trace_mem _ _ _ _ _ hmem with h | h | h | ⟨m, h⟩
    · simp only [List.mem_singleton] at h
      injection h with h1 h2 h3
      exact ⟨h1, h2, h3⟩
    · exact Event.noConfusion h
    · exact Event.noConfusion h
    · exact Event.noConfusion h

/-- A raster event in a `print_grocy` trace carries exactly the context's
label size, red flag and threshold. -/
theorem print_grocy_raster_events (cfg : Config) (fonts : Fonts) (specs : LabelSpecs)
    (debug env : Bool) (render1d : LabelContext → Option Unit) (be : Backend)
    (q : String) (req : Request) (ctx : LabelContext)
    (ls : String) (r : Bool) (th : Int)
    (hctx : get_label_context cfg fonts specs req = .ok ctx)
    (hmem : Event.raster ls r th ∈
      (print_grocy cfg fonts specs debug env render1d be q req).2) :
    ls = ctx.label_size ∧ r = redIn ctx.label_size ∧ th = ctx.threshold := by
  unfold print_grocy at hmem
  simp only [hctx] at hmem
  by_cases hval : (ctx.product.isNone && pyTruthy ctx.battery && pyTruthy ctx.chore) = true
  · rw [if_pos hval] at hmem
    simp at hmem
  · rw [if_neg hval] at hmem
    have htrans : Event.raster ls r th ∈ (transport debug be q
        [Event.render, Event.raster ctx.label_size (redIn ctx.label_size) ctx.threshold]).2 →
        ls = ctx.label_size ∧ r = redIn ctx.label_size ∧ th = ctx.threshold := by
      intro hm
      rcases transport_trace_mem _ _ _ _ _ hm with h | h | h | ⟨m, h⟩
      · simp only [List.mem_cons, List.not_mem_nil, or_false] at h
        rcases h with h | h
        · exact Event.noConfusion h
        · injection h with h1 h2 h3
          exact ⟨h1, h2, h3⟩
      · exact Event.noConfusion h
      · exact Event.noConfusion h
      · exact Event.noConfusion h
    by_cases h1 : env = true
    · rw [if_pos h1] at hmem
      cases hr1 : render1d ctx with
      | some u =>
        simp only [hr1] at hmem
        exact htrans hmem
      | none =>
        simp only [hr1] at hmem
        simp at hmem
    · rw [if_neg h1] at hmem
      cases hcg : create_label_grocy ctx with
      | error e2 =>
        simp only [hcg] at hmem
        simp at hmem
      | ok u =>
        simp only [hcg] at hmem
        exact htrans hmem

/-- A failed write in a non-DEBUG transport run yields the message dict and
logs the warning. -/
theorem transport_write_error (be : Backend) (q : String) (t0 : List Event)
    (e : PyExc) (hw : be.writeResult = .error e) :
    (transport false be q t0).1 = .ok { success := false, message := some e.str } ∧
    Event.warn ("Exception happened: " ++ e.str) ∈ (transport false be q t0).2 := by
  unfold transport
  simp [hw, List.mem_append]

/-- If the transport run recorded the write attempt and the write failed,
the run produced the message dict and the warning — whatever the DEBUG flag
was (in DEBUG mode no write is recorded at all). -/
theorem transport_write_mem_error (debug : Bool) (be : Backend) (q : String)
    (t0 : List Event) (e : PyExc) (hw : be.writeResult = .error e)
    (h0 : Event.write ∉ t0)
    (hmem : Event.write ∈ (transport debug be q t0).2) :
    (transport debug be q t0).1 = .ok { success := false, message := some e.str } ∧
    Event.warn ("Exception happened: " ++ e.str) ∈ (transport debug be q t0).2 := by
  rcases Bool.eq_false_or_eq_true debug with hd | hd
  · subst hd
    exact absurd hmem h0
  · subst hd
    exact transport_write_error be q t0 e hw

/-! ### Claim theorems -/

/-- **C1** (code bug): a print request naming an unknown font does make
`get_label_context` raise `LookupError`, and an unknown label size raises the
subclass `KeyError` from the bare `label_type_specs[...]` subscript on line
79; both print endpoints catch the exception — but the handler body
`return_dict["error"] = e.msg` then reads the attribute `msg`, which Python
builtin lookup errors do not have, so the handler itself raises
`AttributeError` and the promised `success=false`/`error` JSON object is
never returned. -/
theorem lookup_error_reply_crashes :
    get_label_context cfg0 fonts0 specs0 reqBadFont =
      .error (.lookupError "Couln\x27t find the font & style") ∧
    (print_text cfg0 fonts0 specs0 false beOk "d" reqBadFont).1 =
      .error (.attributeError "\x27LookupError\x27 object has no attribute \x27msg\x27") ∧
    (print_grocy cfg0 fonts0 specs0 false false render1dNone beOk "d" reqBadFont).1 =
      .error (.attributeError "\x27LookupError\x27 object has no attribute \x27msg\x27") ∧
    get_label_context cfg0 fonts0 specs0 reqBadSize = .error (.keyError "99x99") ∧
    (print_text cfg0 fonts0 specs0 false beOk "d" reqBadSize).1 =
      .error (.attributeError "\x27KeyError\x27 object has no attribute \x27msg\x27") :=
  ⟨rfl, rfl, rfl, rfl, rfl⟩

/-- **C2**: every print request that reaches the transport step — i.e. whose
run records the backend write attempt, which happens exactly when the
`try` block around the write is entered — gets, when the write raises, the
exception caught: the endpoint logs the warning and returns the JSON dict
with `success=false` and `message` equal to `str(e)`, and the exception does
not propagate (the handler result is an `ok` response, not an exception). -/
theorem write_exception_reported (cfg : Config) (fonts : Fonts) (specs : LabelSpecs)
    (debug env : Bool) (render1d : LabelContext → Option Unit) (be : Backend)
    (q : String) (req : Request) (e : PyExc)
    (hw : be.writeResult = .error e) :
    (Event.write ∈ (print_text cfg fonts specs debug be q req).2 →
      (print_text cfg fonts specs debug be q req).1 =
        .ok { success := false, message := some e.str } ∧
      Event.warn ("Exception happened: " ++ e.str) ∈
        (print_text cfg fonts specs debug be q req).2) ∧
    (Event.write ∈ (print_grocy cfg fonts specs debug env render1d be q req).2 →
      (print_grocy cfg fonts specs debug env render1d be q req).1 =
        .ok { success := false, message := some e.str } ∧
      Event.warn ("Exception happened: " ++ e.str) ∈
        (print_grocy cfg fonts specs debug env render1d be q req).2) := by
  have hLEB : ∀ e2 : PyExc, (lookupErrorBranch e2).2 = [] := by
    intro e2
    cases e2 <;> rfl
  constructor
  · intro hmem
    unfold print_text at hmem ⊢
    cases hc : get_label_context cfg fonts specs req with
    | error e0 =>
      simp only [hc, hLEB e0] at hmem
      exact absurd hmem (List.not_mem_nil _)
    | ok ctx =>
      simp only [hc] at hmem ⊢
      by_cases ht : ctx.text = none
      · rw [if_pos ht] at hmem
        simp at hmem
      · rw [if_neg ht] at hmem ⊢
        exact transport_write_mem_error debug be q _ e hw (by simp) hmem
  · intro hmem
    unfold print_grocy at hmem ⊢
    cases hc : get_label_context cfg fonts specs req with
    | error e0 =>
      simp only [hc, hLEB e0] at hmem
      exact absurd hmem (List.not_mem_nil _)
    | ok ctx =>
      simp only [hc] at hmem ⊢
      by_cases hv : (ctx.product.isNone && pyTruthy ctx.battery && pyTruthy ctx.chore) = true
      · rw [if_pos hv] at hmem
        simp at hmem
      · rw [if_neg hv] at hmem ⊢
        by_cases h1 : env = true
        · rw [if_pos h1] at hmem ⊢
          cases hr1 : render1d ctx with
          | some u =>
            simp only [hr1] at hmem ⊢
            exact transport_write_mem_error debug be q _ e hw (by simp) hmem
          | none =>
            simp only [hr1] at hmem
            simp at hmem
        · rw [if_neg h1] at hmem ⊢
          cases hcg : create_label_grocy ctx with
          | error e2 =>
            simp only [hcg] at hmem
            simp at hmem
          | ok u =>
            simp only [hcg] at hmem ⊢
            exact transport_write_mem_error debug be q _ e hw (by simp) hmem

/-- Witness for C2: the failing backend on a concrete text request and on a
concrete grocy webhook request (no text field, 1-d renderer succeeding), both
of which attempt the write. -/
theorem write_exception_reported_witness :
    (print_text cfg0 fonts0 specs0 false beFail "d" reqGood).1 =
      .ok { success := false, message := some "Device not found" } ∧
    Event.warn "Exception happened: Device not found" ∈
      (print_text cfg0 fonts0 specs0 false beFail "d" reqGood).2 ∧
    (print_grocy cfg0 fonts0 specs0 false true render1dOk beFail "d" reqGrocyBare).1 =
      .ok { success := false, message := some "Device not found" } := by
  have h1 := write_exception_reported cfg0 fonts0 specs0 false true render1dOk beFail "d"
    reqGood (.valueError "Device not found") rfl
  have h2 := write_exception_reported cfg0 fonts0 specs0 false true render1dOk beFail "d"
    reqGrocyBare (.valueError "Device not found") rfl
  obtain ⟨ha, hb⟩ := h1.1 (List.Mem.tail _ (List.Mem.head _))
  exact ⟨ha, hb, (h2.2 (List.Mem.tail _ (List.Mem.tail _ (List.Mem.head _)))).1⟩

/-- **C3**: for the same form data, the `(width, height)` pair produced with
orientation `rotated` is exactly the swap of the pair produced with
orientation `standard`; in `standard` orientation width ≥ height, and in
`rotated` orientation height ≥ width. -/
theorem rotated_swaps_standard (cfg : Config) (fonts : Fonts) (specs : LabelSpecs)
    (req : Request) (ctxS ctxR : LabelContext)
    (hS : get_label_context cfg fonts specs (setParam req "orientation" "standard") = .ok ctxS)
    (hR : get_label_context cfg fonts specs (setParam req "orientation" "rotated") = .ok ctxR) :
    (ctxR.width, ctxR.height) = (ctxS.height, ctxS.width) ∧
      ctxS.height ≤ ctxS.width ∧ ctxR.width ≤ ctxR.height := by
  obtain ⟨spS, hspS, _, hoS, _, hwhS, _, _, _, _, _⟩ := glc_shape hS
  obtain ⟨spR, hspR, _, hoR, _, hwhR, _, _, _, _, _⟩ := glc_shape hR
  have hls : ∀ v : String,
      (setParam req "orientation" v).params "label_size" = req.params "label_size" := by
    intro v
    simp [setParam]
  have hor : ∀ v : String,
      (setParam req "orientation" v).params "orientation" = some v := by
    intro v
    simp [setParam]
  rw [hls "standard"] at hspS
  rw [hls "rotated"] at hspR
  rw [hspS] at hspR
  have hsp2 : spS = spR := Option.some.inj hspR
  subst hsp2
  rw [hor "standard"] at hoS
  rw [hor "rotated"] at hoR
  simp only [Option.getD_some] at hoS hoR
  rw [hoS] at hwhS
  rw [hoR] at hwhR
  rw [orientDims_rotated_swap] at hwhR
  have sW : ctxS.width = (orientDims "standard" spS.dots_printable).1 :=
    congrArg Prod.fst hwhS
  have sH : ctxS.height = (orientDims "standard" spS.dots_printable).2 :=
    congrArg Prod.snd hwhS
  have rW : ctxR.width = (orientDims "standard" spS.dots_printable).2 :=
    congrArg Prod.fst hwhR
  have rH : ctxR.height = (orientDims "standard" spS.dots_printable).1 :=
    congrArg Prod.snd hwhR
  refine ⟨?_, ?_, ?_⟩
  · rw [rW, rH, sW, sH]
  · rw [sW, sH]
    exact orientDims_standard_wide _
  · rw [rW, rH]
    exact orientDims_standard_wide _

/-- Witness for C3 on the 29x90 die-cut label. -/
theorem rotated_swaps_standard_witness :
    (ctxRot.width, ctxRot.height) = (ctxStd.height, ctxStd.width) ∧
      ctxStd.height ≤ ctxStd.width ∧ ctxRot.width ≤ ctxRot.height :=
  rotated_swaps_standard cfg0 fonts0 specs0 reqDieCut ctxStd ctxRot rfl rfl

/-- **C4**: a request supplying only a resolvable `font_family` falls back to
the documented defaults: font size 40, label size `"50"`, margin 10, threshold
70, align `center`, orientation `standard`, and each directional margin equal
to 25 percent of the font size truncated to an integer, i.e. 10. -/
theorem omitted_fields_get_defaults (cfg : Config) (fonts : Fonts) (specs : LabelSpecs)
    (ff path : String) (sp : LabelSpec)
    (hfont : fontsLookup fonts (pyStrip (rpartitionChar '(' ff).1)
        (pyRstrip ')' (rpartitionChar '(' ff).2) = some path)
    (hsp : specs.lookup "50" = some sp) :
    get_label_context_d cfg fonts specs
        (fun k => if k = "font_family" then some ff else none) =
      .ok { text := none
            font_size := 40
            font_family := pyStrip (rpartitionChar '(' ff).1
            font_style := pyRstrip ')' (rpartitionChar '(' ff).2
            label_size := "50"
            kind := sp.kind
            margin := 10
            threshold := 70
            align := "center"
            orientation := "standard"
            margin_top := 10
            margin_bottom := 10
            margin_left := 10
            margin_right := 10
            grocycode := none
            product := none
            duedate := none
            battery := none
            chore := none
            fill_color := (0, 0, 0)
            font_path := path
            width := (orientDims "standard" sp.dots_printable).1
            height := (orientDims "standard" sp.dots_printable).2 } := by
  have hred : redIn "50" = false := rfl
  have hmt : pyTrunc (PyFloat.intMul 40 (PyFloat.div100 ⟨25, 1⟩)) = 10 := rfl
  unfold get_label_context_d
  simp [intField, floatField, get_font_path, labelDims, hsp, hfont, hred, hmt]

/-- Witness for C4 at a concrete registry. -/
theorem omitted_fields_get_defaults_witness :
    get_label_context_d cfg0 fonts0 specs0
        (fun k => if k = "font_family" then some "DejaVu Sans (Book)" else none) =
      .ok { text := none
            font_size := 40
            font_family := "DejaVu Sans"
            font_style := "Book"
            label_size := "50"
            kind := .endless
            margin := 10
            threshold := 70
            align := "center"
            orientation := "standard"
            margin_top := 10
            margin_bottom := 10
            margin_left := 10
            margin_right := 10
            grocycode := none
            product := none
            duedate := none
            battery := none
            chore := none
            fill_color := (0, 0, 0)
            font_path := "/fonts/DejaVuSans.ttf"
            width := 554
            height := 0 } :=
  omitted_fields_get_defaults cfg0 fonts0 specs0 "DejaVu Sans (Book)"
    "/fonts/DejaVuSans.ttf" { kind := .endless, dots_printable := (554, 0) } rfl rfl

/-- Helper for C5: the settled values of `applyArgs` in closed form. -/
theorem applyArgs_config (a : Args) (c : Config) :
    (applyArgs a c).config.printer_printer =
      (if pyTruthy a.printer then a.printer.getD "" else c.printer_printer) ∧
    (applyArgs a c).config.printer_model =
      (if pyTruthy a.model then a.model.getD "" else c.printer_model) ∧
    (applyArgs a c).config.label_default_size =
      (if pyTruthy a.default_label_size then a.default_label_size.getD ""
       else c.label_default_size) ∧
    (applyArgs a c).config.label_default_orientation =
      (if pyTruthy a.default_orientation then a.default_orientation.getD ""
       else c.label_default_orientation) ∧
    (applyArgs a c).port =
      (if pyTruthy a.port then .inl (a.port.getD "") else .inr c.server_port) ∧
    (applyArgs a c).loglevel =
      (if truthyInt a.loglevel then .inl (a.loglevel.getD 0) else .inr c.server_loglevel) := by
  simp only [applyArgs]
  refine ⟨?_, ?_, ?_, ?_, ?_, ?_⟩ <;> (repeat' split) <;> simp_all

/-- **C5** counterexample: the positional printer argument, supplied as the
empty string, goes through the truthiness test `if args.printer:` and is
discarded, so it does not replace `CONFIG['PRINTER']['PRINTER']`. -/
theorem cli_empty_printer_not_applied :
    argsEmptyPrinter.printer = some "" ∧
    cfg0.printer_printer = "file:///dev/usb/lp0" ∧
    (applyArgs argsEmptyPrinter cfg0).config.printer_printer = "file:///dev/usb/lp0" :=
  ⟨rfl, rfl, rfl⟩

/-- **C5** (amended): a supplied command-line value replaces the
corresponding CONFIG entry (or provides PORT / LOGLEVEL) exactly when it is
truthy; an omitted argument — and likewise a supplied falsy value such as an
empty string or log level `NOTSET` (0) — leaves the configured value in
use. -/
theorem cli_overrides_amended (a : Args) (c : Config) :
    (∀ s, a.printer = some s → s ≠ "" →
      (applyArgs a c).config.printer_printer = s) ∧
    (pyTruthy a.printer = false →
      (applyArgs a c).config.printer_printer = c.printer_printer) ∧
    (∀ s, a.model = some s → s ≠ "" →
      (applyArgs a c).config.printer_model = s) ∧
    (pyTruthy a.model = false →
      (applyArgs a c).config.printer_model = c.printer_model) ∧
    (∀ s, a.default_label_size = some s → s ≠ "" →
      (applyArgs a c).config.label_default_size = s) ∧
    (pyTruthy a.default_label_size = false →
      (applyArgs a c).config.label_default_size = c.label_default_size) ∧
    (∀ s, a.default_orientation = some s → s ≠ "" →
      (applyArgs a c).config.label_default_orientation = s) ∧
    (pyTruthy a.default_orientation = false →
      (applyArgs a c).config.label_default_orientation = c.label_default_orientation) ∧
    (∀ s, a.port = some s → s ≠ "" → (applyArgs a c).port = .inl s) ∧
    (pyTruthy a.port = false → (applyArgs a c).port = .inr c.server_port) ∧
    (∀ n : Int, a.loglevel = some n → n ≠ 0 → (applyArgs a c).loglevel = .inl n) ∧
    (truthyInt a.loglevel = false → (applyArgs a c).loglevel = .inr c.server_loglevel) := by
  obtain ⟨h1, h2, h3, h4, h5, h6⟩ := applyArgs_config a c
  refine ⟨?_, ?_, ?_, ?_, ?_, ?_, ?_, ?_, ?_, ?_, ?_, ?_⟩
  · intro s hs hne
    rw [h1, hs]
    simp [pyTruthy, hne]
  · intro hfalse
    simp [h1, hfalse]
  · intro s hs hne
    rw [h2, hs]
    simp [pyTruthy, hne]
  · intro hfalse
    simp [h2, hfalse]
  · intro s hs hne
    rw [h3, hs]
    simp [pyTruthy, hne]
  · intro hfalse
    simp [h3, hfalse]
  · intro s hs hne
    rw [h4, hs]
    simp [pyTruthy, hne]
  · intro hfalse
    simp [h4, hfalse]
  · intro s hs hne
    rw [h5, hs]
    simp [pyTruthy, hne]
  · intro hfalse
    simp [h5, hfalse]
  · intro n hn hne
    rw [h6, hn]
    simp [truthyInt, hne]
  · intro hfalse
    simp [h6, hfalse]

/-- Witness for C5 (amended): truthy values replace, the falsy printer string
does not. -/
theorem cli_overrides_amended_witness :
    (applyArgs argsFull cfg0).config.printer_printer = "tcp://10.0.0.1:9100" ∧
    (applyArgs argsFull cfg0).port = .inl "1234" ∧
    (applyArgs argsEmptyPrinter cfg0).config.printer_printer = cfg0.printer_printer :=
  ⟨(cli_overrides_amended argsFull cfg0).1 _ rfl (by decide),
   (cli_overrides_amended argsFull cfg0).2.2.2.2.2.2.2.2.1 _ rfl (by decide),
   (cli_overrides_amended argsEmptyPrinter cfg0).2.1 rfl⟩

/-- **C6**: no HTTP handler mutates the shared state (`CONFIG`, `FONTS`,
`LABEL_SIZES`), so running any handler first does not change what a later
request observes. -/
theorem handlers_preserve_shared_state {Image : Type} (createIm : LabelContext → Image)
    (toPng : Image → List Nat) (specs : LabelSpecs) (debug env : Bool)
    (render1d : LabelContext → Option Unit) (be : Backend)
    (q : String) (st : GlobalState) (req req2 : Request) :
    (index_route st).1 = st ∧
    (labeldesigner_route st).1 = st ∧
    (preview_route createIm toPng specs st req).1 = st ∧
    (print_text_route specs debug be q st req).1 = st ∧
    (print_grocy_route specs debug env render1d be q st req).1 = st ∧
    print_text_route specs debug be q
        ((print_grocy_route specs debug env render1d be q st req2).1) req
      = print_text_route specs debug be q st req ∧
    print_grocy_route specs debug env render1d be q
        ((print_text_route specs debug be q st req2).1) req
      = print_grocy_route specs debug env render1d be q st req :=
  ⟨rfl, rfl, rfl, rfl, rfl, rfl, rfl⟩

/-- **C7**: in any print request the backend `write` is called at most once,
and when the write fails the handler returns the message dict at once — there
is no retry. -/
theorem write_attempted_at_most_once (cfg : Config) (fonts : Fonts) (specs : LabelSpecs)
    (debug env : Bool) (render1d : LabelContext → Option Unit) (be : Backend)
    (q : String) (req : Request) :
    (print_text cfg fonts specs debug be q req).2.count Event.write ≤ 1 ∧
    (print_grocy cfg fonts specs debug env render1d be q req).2.count Event.write ≤ 1 ∧
    (∀ e, be.writeResult = .error e →
      (Event.write ∈ (print_text cfg fonts specs debug be q req).2 →
        (print_text cfg fonts specs debug be q req).1 =
          .ok { success := false, message := some e.str }) ∧
      (Event.write ∈ (print_grocy cfg fonts specs debug env render1d be q req).2 →
        (print_grocy cfg fonts specs debug env render1d be q req).1 =
          .ok { success := false, message := some e.str })) := by
  have hLEB : ∀ e : PyExc, (lookupErrorBranch e).2 = [] := by
    intro e
    cases e <;> rfl
  have hdbg : debug = true ∨ debug = false := Bool.eq_false_or_eq_true debug
  unfold print_text print_grocy
  cases hc : get_label_context cfg fonts specs req with
  | error e0 =>
    refine ⟨?_, ?_, fun e hw => ⟨fun hmem => ?_, fun hmem => ?_⟩⟩
    · simp [hLEB e0]
    · simp [hLEB e0]
    · simp [hLEB e0] at hmem
    · simp [hLEB e0] at hmem
  | ok ctx =>
    refine ⟨?_, ?_, fun e hw => ⟨fun hmem => ?_, fun hmem => ?_⟩⟩
    · dsimp only
      by_cases ht : ctx.text = none
      · simp [ht]
      · rw [if_neg ht]
        exact (transport_write_once debug be q
          [Event.raster ctx.label_size (redIn ctx.label_size) ctx.threshold] rfl).1
    · dsimp only
      by_cases hv : (ctx.product.isNone && pyTruthy ctx.battery && pyTruthy ctx.chore) = true
      · simp [hv]
      · rw [if_neg hv]
        by_cases h1 : env = true
        · rw [if_pos h1]
          cases hr1 : render1d ctx with
          | some u =>
            exact (transport_write_once debug be q
              [Event.render,
               Event.raster ctx.label_size (redIn ctx.label_size) ctx.threshold] rfl).1
          | none =>
            simp only [hr1]
            decide
        · rw [if_neg h1]
          cases hcg : create_label_grocy ctx with
          | error e2 =>
            simp only [hcg]
            decide
          | ok u =>
            exact (transport_write_once debug be q
              [Event.render,
               Event.raster ctx.label_size (redIn ctx.label_size) ctx.threshold] rfl).1
    · dsimp only at hmem ⊢
      by_cases ht : ctx.text = none
      · rw [if_pos ht] at hmem
        simp at hmem
      · rw [if_neg ht] at hmem ⊢
        rcases hdbg with hd | hd
        · subst hd
          simp [transport] at hmem
        · exact (transport_write_once debug be q
            [Event.raster ctx.label_size (redIn ctx.label_size) ctx.threshold] rfl).2 e hw hd
    · dsimp only at hmem ⊢
      by_cases hv : (ctx.product.isNone && pyTruthy ctx.battery && pyTruthy ctx.chore) = true
      · rw [if_pos hv] at hmem
        simp at hmem
      · rw [if_neg hv] at hmem ⊢
        by_cases h1 : env = true
        · rw [if_pos h1] at hmem ⊢
          cases hr1 : render1d ctx with
          | some u =>
            simp only [hr1] at hmem ⊢
            rcases hdbg with hd | hd
            · subst hd
              simp [transport] at hmem
            · exact (transport_write_once debug be q
                [Event.render,
                 Event.raster ctx.label_size (redIn ctx.label_size) ctx.threshold]
                  rfl).2 e hw hd
          | none =>
            simp only [hr1] at hmem
            simp at hmem
        · rw [if_neg h1] at hmem ⊢
          cases hcg : create_label_grocy ctx with
          | error e2 =>
            simp only [hcg] at hmem
            simp at hmem
          | ok u =>
            simp only [hcg] at hmem ⊢
            rcases hdbg with hd | hd
            · subst hd
              simp [transport] at hmem
            · exact (transport_write_once debug be q
                [Event.render,
                 Event.raster ctx.label_size (redIn ctx.label_size) ctx.threshold]
                  rfl).2 e hw hd

/-- Witness for C7: a failing backend on a concrete request. -/
theorem write_attempted_at_most_once_witness :
    (print_text cfg0 fonts0 specs0 false beFail "d" reqGood).2.count Event.write ≤ 1 ∧
    (print_text cfg0 fonts0 specs0 false beFail "d" reqGood).1 =
      .ok { success := false, message := some "Device not found" } :=
  ⟨(write_attempted_at_most_once cfg0 fonts0 specs0 false false render1dNone beFail
      "d" reqGood).1,
   ((write_attempted_at_most_once cfg0 fonts0 specs0 false false render1dNone beFail
      "d" reqGood).2.2 (.valueError "Device not found") rfl).1
     (List.Mem.tail _ (List.Mem.head _))⟩

/-- **C8**: `print_grocy` returns the validation-error JSON exactly when the
parsed context has `product` equal to `None` AND truthy `battery` AND truthy
`chore`; in particular, with all three absent the branch is not taken and the
handler proceeds into label rendering (where, on the datamatrix path, the
renderer then raises — see `create_label_grocy` — so proceeding is witnessed
by the render entry, not by the later raster call). -/
theorem grocy_validation_branch (cfg : Config) (fonts : Fonts) (specs : LabelSpecs)
    (debug env : Bool) (render1d : LabelContext → Option Unit) (be : Backend)
    (q : String) (req : Request) (ctx : LabelContext)
    (hctx : get_label_context cfg fonts specs req = .ok ctx) :
    ((print_grocy cfg fonts specs debug env render1d be q req).1 =
        .ok { success := false,
              error := some "Please provide the product/battery/chore for the label" } ↔
      (ctx.product = none ∧ pyTruthy ctx.battery = true ∧ pyTruthy ctx.chore = true)) ∧
    (ctx.product = none → ctx.battery = none → ctx.chore = none →
      Event.render ∈ (print_grocy cfg fonts specs debug env render1d be q req).2) := by
  unfold print_grocy
  simp only [hctx]
  by_cases hval : (ctx.product.isNone && pyTruthy ctx.battery && pyTruthy ctx.chore) = true
  · rw [if_pos hval]
    simp only [Bool.and_eq_true, Option.isNone_iff_eq_none] at hval
    constructor
    · constructor
      · intro _
        exact ⟨hval.1.1, hval.1.2, hval.2⟩
      · intro _
        rfl
    · intro _ hb _
      rw [hb] at hval
      simp [pyTruthy] at hval
  · rw [if_neg hval]
    constructor
    · constructor
      · intro hres
        by_cases h1 : env = true
        · rw [if_pos h1] at hres
          cases hr1 : render1d ctx with
          | some u =>
            simp only [hr1] at hres
            have herr := transport_result_error_none debug be q _ _ hres
            simp at herr
          | none =>
            simp only [hr1] at hres
            exact Except.noConfusion hres
        · rw [if_neg h1] at hres
          cases hcg : create_label_grocy ctx with
          | error e2 =>
            simp only [hcg] at hres
            exact Except.noConfusion hres
          | ok u =>
            simp only [hcg] at hres
            have herr := transport_result_error_none debug be q _ _ hres
            simp at herr
      · intro hcond
        exfalso
        apply hval
        simp [Option.isNone_iff_eq_none, hcond.1, hcond.2.1, hcond.2.2]
    · intro _ _ _
      by_cases h1 : env = true
      · rw [if_pos h1]
        cases hr1 : render1d ctx with
        | some u =>
          exact transport_trace_prefix debug be q _ _ (by simp)
        | none =>
          exact List.Mem.head _
      · rw [if_neg h1]
        cases hcg : create_label_grocy ctx with
        | error e2 =>
          exact List.Mem.head _
        | ok u =>
          exact transport_trace_prefix debug be q _ _ (by simp)

/-- Witness for C8: product, battery and chore all absent — the validation
branch is skipped and the handler enters the renderer. -/
theorem grocy_validation_branch_witness :
    (¬((print_grocy cfg0 fonts0 specs0 false false render1dNone beOk "d" reqGrocyBare).1 =
        .ok { success := false,
              error := some "Please provide the product/battery/chore for the label" })) ∧
    Event.render ∈
      (print_grocy cfg0 fonts0 specs0 false false render1dNone beOk "d" reqGrocyBare).2 := by
  have h := grocy_validation_branch cfg0 fonts0 specs0 false false render1dNone beOk "d"
    reqGrocyBare ctxGrocyBare rfl
  refine ⟨fun hres => ?_, ?_⟩
  · exact absurd (h.1.mp hres).2.1 (by decide)
  · exact h.2 rfl rfl rfl

/-- **C9**: for the same form data, the `/api/preview/text` body with
`return_format=base64` is exactly the base64 encoding of the PNG body
returned without `return_format`, so base64-decoding the `text/plain`
response yields the `image/png` response byte for byte. -/
theorem preview_base64_matches_png {Image : Type} (createIm : LabelContext → Image)
    (toPng : Image → List Nat) (cfg : Config) (fonts : Fonts) (specs : LabelSpecs)
    (req : Request) (r64 rp : String × List Nat)
    (h64 : get_preview_image createIm toPng cfg fonts specs
        (setQuery req "return_format" "base64") = .ok r64)
    (hp : get_preview_image createIm toPng cfg fonts specs
        (delQuery req "return_format") = .ok rp)
    (hbytes : ∀ x ∈ rp.2, x < 256) :
    r64.1 = "text/plain" ∧ rp.1 = "image/png" ∧
    r64.2 = b64encode rp.2 ∧ b64decode r64.2 = rp.2 := by
  unfold get_preview_image at h64 hp
  have hq64 : (setQuery req "return_format" "base64").query "return_format" =
      some "base64" := by
    simp [setQuery]
  have hqd : (delQuery req "return_format").query "return_format" = none := by
    simp [delQuery]
  cases hc : get_label_context cfg fonts specs req with
  | error e =>
    have hc64 : get_label_context cfg fonts specs
        (setQuery req "return_format" "base64") = .error e := hc
    simp only [hc64] at h64
    exact Except.noConfusion h64
  | ok ctx =>
    have hc64 : get_label_context cfg fonts specs
        (setQuery req "return_format" "base64") = .ok ctx := hc
    have hcd : get_label_context cfg fonts specs
        (delQuery req "return_format") = .ok ctx := hc
    simp only [hc64, hq64, Option.getD_some] at h64
    simp only [hcd, hqd, Option.getD_none] at hp
    simp only [if_true] at h64
    rw [if_neg (by decide : ¬(("png" : String) = "base64"))] at hp
    cases h64
    cases hp
    exact ⟨rfl, rfl, rfl, b64_roundtrip _ hbytes⟩

/-- Witness for C9: a stub PNG encoder producing the PNG magic bytes. -/
theorem preview_base64_matches_png_witness :
    ([105, 86, 66, 79, 82, 119, 48, 75] : List Nat) = b64encode [137, 80, 78, 71, 13, 10] ∧
    b64decode [105, 86, 66, 79, 82, 119, 48, 75] = [137, 80, 78, 71, 13, 10] := by
  have h := preview_base64_matches_png (fun _ => ()) pngStub cfg0 fonts0 specs0
    reqPreview ("text/plain", [105, 86, 66, 79, 82, 119, 48, 75])
    ("image/png", [137, 80, 78, 71, 13, 10]) rfl rfl (by decide)
  exact ⟨h.2.2.1, h.2.2.2⟩

/-- **C10**: the fill color chosen by `get_label_context` is red `(255,0,0)`
exactly when the label size contains the substring `red` (black `(0,0,0)`
otherwise), and both print endpoints pass `red=true` to the raster builder
under exactly the same substring condition. -/
theorem red_fill_iff_red_in_label (cfg : Config) (fonts : Fonts) (specs : LabelSpecs)
    (req : Request) (ctx : LabelContext)
    (hctx : get_label_context cfg fonts specs req = .ok ctx) :
    (ctx.fill_color = (255, 0, 0) ↔ redIn ctx.label_size = true) ∧
    (ctx.fill_color = (0, 0, 0) ↔ redIn ctx.label_size = false) ∧
    (∀ debug be q ls r th,
      Event.raster ls r th ∈ (print_text cfg fonts specs debug be q req).2 →
        r = redIn ls) ∧
    (∀ debug env render1d be q ls r th,
      Event.raster ls r th ∈
          (print_grocy cfg fonts specs debug env render1d be q req).2 →
        r = redIn ls) := by
  obtain ⟨sp, _, _, _, _, _, hfill, _, _, _, _⟩ := glc_shape hctx
  refine ⟨?_, ?_, ?_, ?_⟩
  · by_cases hred : redIn ctx.label_size = true
    · rw [if_pos hred] at hfill
      rw [hfill, hred]
      simp
    · rw [if_neg hred] at hfill
      rw [hfill]
      simp only [Bool.not_eq_true] at hred
      rw [hred]
      constructor
      · intro h
        exact absurd h (by decide)
      · intro h
        exact absurd h (by decide)
  · by_cases hred : redIn ctx.label_size = true
    · rw [if_pos hred] at hfill
      rw [hfill, hred]
      constructor
      · intro h
        exact absurd h (by decide)
      · intro h
        exact absurd h (by decide)
    · rw [if_neg hred] at hfill
      rw [hfill]
      simp only [Bool.not_eq_true] at hred
      rw [hred]
      simp
  · intro debug be q ls r th hmem
    obtain ⟨hls, hr, _⟩ :=
      print_text_raster_events cfg fonts specs debug be q req ctx ls r th hctx hmem
    rw [hr, hls]
  · intro debug env render1d be q ls r th hmem
    obtain ⟨hls, hr, _⟩ :=
      print_grocy_raster_events cfg fonts specs debug env render1d be q req ctx
        ls r th hctx hmem
    rw [hr, hls]

/-- Witness for C10: the red 62mm tape yields the red fill and a raster call
with `red=true`. -/
theorem red_fill_iff_red_in_label_witness :
    ctxRed.fill_color = (255, 0, 0) ∧ (true : Bool) = redIn "62red" := by
  have h := red_fill_iff_red_in_label cfg0 fonts0 specs0 reqRed ctxRed rfl
  exact ⟨h.1.mpr rfl, h.2.2.1 false beOk "d" "62red" true 70 (List.Mem.head _)⟩

end BrotherQLWeb
